import Mathlib

/-!
Verification of the VM power-state change listener and the test utilities of
docker-volume-vsphere, shallowly embedded from
`esx_service/utils/vm_listener.py` and `esx_service/utils/test_utils.py`.

The listener registers a property-collector filter for the power state of all
virtual machines, then long-polls for updates in a background thread; on a
transition of `runtime.powerState` to `poweredOff` it marks each attached
DVS-managed volume as detached.  External collaborators
(`vmdk_utils.find_dvs_volume`, `vmdk_ops.setStatusDetached`,
`pc.CreateFilter`, `pc.WaitForUpdates`) are modelled as function parameters;
their observable effects (log calls, detach calls, polls made) are collected
in lists so that the loop's behaviour on any finite schedule of poll outcomes
is a computable function.
-/

namespace VmListener

/-- Property name watched by the listener (`VM_POWERSTATE` in the source). -/
def VM_POWERSTATE : String := "runtime.powerState"

/-- Powered-off enumeration value (`POWERSTATE_POWEROFF` in the source). -/
def POWERSTATE_POWEROFF : String := "poweredOff"

/-- Severity of a logging call made by the listener. -/
inductive LogLevel where
  | info : LogLevel
  | error : LogLevel
deriving DecidableEq, Repr

/-- One logging call: its severity and rendered message. -/
structure LogMsg where
  level : LogLevel
  msg : String
deriving DecidableEq, Repr

/-- A virtual hardware device attached to a VM.  Its internals are opaque to
this module; only the external classification `find_dvs_volume` inspects it. -/
structure Device where
  devId : Nat
deriving DecidableEq, Repr

/-- The `hardware` part of a VM configuration: its device list. -/
structure VMHardware where
  device : List Device
deriving DecidableEq, Repr

/-- The `config` part of a VM: its name and hardware. -/
structure VMConfig where
  name : String
  hardware : VMHardware
deriving DecidableEq, Repr

/-- A managed object reference to a VM, as read from an object-match. -/
structure Moref where
  config : VMConfig
deriving DecidableEq, Repr

/-- One property change inside an object update: property path and new value. -/
structure Change where
  name : String
  val : String
deriving DecidableEq, Repr

/-- One object-match (`ObjectUpdate`): its kind, property changes, and the VM
object reference, which may be absent (`getattr(objectSet, 'obj', None)`). -/
structure ObjectSet where
  kind : String
  changeSet : List Change
  obj : Option Moref
deriving DecidableEq, Repr

/-- One filter-match (`PropertyFilterUpdate`): its object updates. -/
structure FilterSet where
  objectSet : List ObjectSet
deriving DecidableEq, Repr

/-- The result of one `WaitForUpdates` poll: the filter-matches and the new
version token (the cursor for the next poll). -/
structure UpdateResult where
  filterSet : List FilterSet
  version : String
deriving DecidableEq, Repr

/-- `set_device_detached` from the source: for each device classified by
`find_dvs` as a DVS-managed volume, log an info message and issue one
`setStatusDetached` call with the volume path.  Returns the log calls and
the detach calls, each in device order. -/
def set_device_detached (find_dvs : Device → Option String) :
    List Device → List LogMsg × List String
  | [] => ([], [])
  | dev :: rest =>
    let out := set_device_detached find_dvs rest
    match find_dvs dev with
    | some vmdk_path =>
        (⟨LogLevel.info, "Setting detach status for " ++ vmdk_path⟩ :: out.1,
         vmdk_path :: out.2)
    | none => out

/-- Componentwise concatenation of (log calls, detach calls) outputs. -/
def joinOut : List (List LogMsg × List String) → List LogMsg × List String
  | [] => ([], [])
  | p :: rest => (p.1 ++ (joinOut rest).1, p.2 ++ (joinOut rest).2)

/-- Processing of one property change of one object-match, as in the innermost
loop of `listen_vm_propertychange`: skip unless the change is the power-state
property turning `poweredOff`; then read the VM object reference, logging an
error and skipping when it is absent, and otherwise log the power-off and run
`set_device_detached` over the VM's hardware device list. -/
def process_change (find_dvs : Device → Option String) (os : ObjectSet)
    (change : Change) : List LogMsg × List String :=
  if change.name ≠ VM_POWERSTATE ∨ change.val ≠ POWERSTATE_POWEROFF then ([], [])
  else
    match os.obj with
    | none => ([⟨LogLevel.error, "Could not retrieve the managed object"⟩], [])
    | some moref =>
        let out := set_device_detached find_dvs moref.config.hardware.device
        (⟨LogLevel.info, "VM poweroff change found for " ++ moref.config.name⟩
           :: out.1,
         out.2)

/-- Processing of one object-match: skipped unless its kind is `modify`;
otherwise each of its property changes is processed in order. -/
def process_objectSet (find_dvs : Device → Option String)
    (os : ObjectSet) : List LogMsg × List String :=
  if os.kind ≠ "modify" then ([], [])
  else joinOut (os.changeSet.map (process_change find_dvs os))

/-- Processing of one whole poll result: every object-match of every
filter-match, in order.  This is the body of the `try` block of
`listen_vm_propertychange`. -/
def process_result (find_dvs : Device → Option String)
    (r : UpdateResult) : List LogMsg × List String :=
  joinOut (r.filterSet.map
    (fun fs => joinOut (fs.objectSet.map (process_objectSet find_dvs))))

/-- Observable outcome of running the loop body once over a poll result: the
log calls made, the detach calls made, and `err = some e` when the body raised
exception `e` after producing those effects (`err = none` when it completed). -/
structure BodyOut where
  logs : List LogMsg
  detaches : List String
  err : Option String
deriving DecidableEq, Repr

/-- The loop body exactly as written: it processes the result completely and
raises nothing (the embedded object graph is total). -/
def listener_body (find_dvs : Device → Option String)
    (r : UpdateResult) : BodyOut :=
  ⟨(process_result find_dvs r).1, (process_result find_dvs r).2, none⟩

/-- Observable trace of a run of the watch loop: the cursor argument of each
poll actually made, all log calls, all detach calls, and `crashed = some e`
when an exception `e` escaped the loop uncaught. -/
structure Trace where
  cursors : List String
  logs : List LogMsg
  detaches : List String
  crashed : Option String
deriving DecidableEq, Repr

/-- `listen_vm_propertychange` over a finite schedule of poll outcomes: each
poll either returns an `UpdateResult` or raises.  The `WaitForUpdates` call is
OUTSIDE the `try` block in the source, so a raising poll terminates the loop
with the exception uncaught (recorded in `crashed`); an exception from the
body is caught and logged, and `version = result.version` still runs, so the
next poll is made with the just-received cursor. -/
def run_listener (body : UpdateResult → BodyOut) :
    List (Except String UpdateResult) → String → Trace
  | [], _ => ⟨[], [], [], none⟩
  | Except.error e :: _, v => ⟨[v], [], [], some e⟩
  | Except.ok r :: rest, v =>
    let b := body r
    let caught : List LogMsg :=
      match b.err with
      | some e => [⟨LogLevel.error, "VMChangeListener: error " ++ e⟩]
      | none => []
    let t := run_listener body rest r.version
    ⟨v :: t.cursors, (b.logs ++ caught) ++ t.logs,
     b.detaches ++ t.detaches, t.crashed⟩

/-- A selection spec naming another traversal spec (`SelectionSpec`). -/
structure SelectionSpec where
  name : String
deriving DecidableEq, Repr

/-- A traversal spec of the property collector (`TraversalSpec`). -/
structure TraversalSpec where
  name : String
  typeName : String
  path : String
  skip : Bool
  selectSet : List SelectionSpec
deriving DecidableEq, Repr

/-- `vm_folder_traversal` from the source: recurse from each datacenter into
its `vmFolder` and through nested folders. -/
def vm_folder_traversal : List TraversalSpec :=
  let dcToVmf : TraversalSpec :=
    ⟨"dcToVmf", "Datacenter", "vmFolder", false, [⟨"visitFolders"⟩]⟩
  let visitFolders : TraversalSpec :=
    ⟨"visitFolders", "Folder", "childEntity", false,
     [⟨"visitFolders"⟩, ⟨"dcToVmf"⟩]⟩
  [visitFolders, dcToVmf]

/-- A property spec restricting the reported properties (`PropertySpec`). -/
structure PropertySpec where
  typeName : String
  all : Bool
  pathSet : List String
deriving DecidableEq, Repr

/-- An object spec: the root object and the traversal selection set. -/
structure ObjectSpec where
  obj : String
  selectSet : List TraversalSpec
deriving DecidableEq, Repr

/-- A property-collector filter spec (`FilterSpec`). -/
structure FilterSpec where
  objectSet : List ObjectSpec
  propSet : List PropertySpec
deriving DecidableEq, Repr

/-- The filter spec built by `create_vm_powerstate_filter`: one object spec
rooted at `from_node` with the folder traversal, and one property spec for
`VirtualMachine` restricted to exactly the power-state path. -/
def powerstate_filterSpec (from_node : String) : FilterSpec :=
  ⟨[⟨from_node, vm_folder_traversal⟩],
   [⟨"VirtualMachine", false, [VM_POWERSTATE]⟩]⟩

/-- Outcome of `create_vm_powerstate_filter`: the returned error message
(`none` on success) and whether the `atexit` cleanup releasing the filter was
registered. -/
structure FilterOutcome where
  err_msg : Option String
  atexitRegistered : Bool
deriving DecidableEq, Repr

/-- `create_vm_powerstate_filter`: build the filter spec and register it with
the property collector.  `CreateFilter` is the external `pc.CreateFilter`
call, which may raise; on success the `atexit` cleanup is registered and
`None` is returned, on failure the error message is returned (and logged). -/
def create_vm_powerstate_filter (CreateFilter : FilterSpec → Except String Unit)
    (from_node : String) : FilterOutcome :=
  match CreateFilter (powerstate_filterSpec from_node) with
  | Except.ok _ => ⟨none, true⟩
  | Except.error e =>
      ⟨some ("Problem creating PropertyCollector filter: " ++ e), false⟩

/-- Outcome of `start_vm_changelistener`: the returned error (if any), whether
the cleanup was registered, and whether the watch thread was started and as a
daemon. -/
structure StartOutcome where
  err : Option String
  atexitRegistered : Bool
  threadStarted : Bool
  threadDaemon : Bool
deriving DecidableEq, Repr

/-- `start_vm_changelistener`: register the power-state filter; on failure
return the error message without starting the watch thread, on success start
`listen_vm_propertychange` in a daemon thread and return no error. -/
def start_vm_changelistener (CreateFilter : FilterSpec → Except String Unit)
    (from_node : String) : StartOutcome :=
  let fo := create_vm_powerstate_filter CreateFilter from_node
  match fo.err_msg with
  | some m => ⟨some m, fo.atexitRegistered, false, false⟩
  | none => ⟨none, fo.atexitRegistered, true, true⟩

end VmListener

namespace TestUtils

/-- One entry of the volume listing passed to `checkIfVolumeExist`; only its
`Name` value is inspected. -/
structure VolEntry where
  Name : String
deriving DecidableEq, Repr

/-- Python truthiness of a possibly-absent list: `None` and `[]` are falsy. -/
def listTruthy : Option (List α) → Bool
  | none => false
  | some l => !l.isEmpty

/-- The inner `for j in range(len(result))` loop of `checkIfVolumeExist` for
one name: if the entry at `j` matches, break out (found); otherwise, if `j` is
the last index, return `False`; otherwise continue.  An empty list falls
through the loop without deciding, which the source treats as found (this
branch is unreachable behind the emptiness guard). -/
def scanName (name : String) : List VolEntry → Bool
  | [] => true
  | e :: rest =>
    if e.Name == name then true
    else if rest.isEmpty then false
    else scanName name rest

/-- `checkIfVolumeExist` from the source: `False` when either argument is
falsy (absent or empty), otherwise `True` exactly when every requested name
survives the inner scan of `result`. -/
def checkIfVolumeExist (volume_names : Option (List String))
    (result : Option (List VolEntry)) : Bool :=
  if !listTruthy result || !listTruthy volume_names then false
  else (volume_names.getD []).all (fun name => scanName name (result.getD []))

/-- `generate_volume_names` from the source: the list
`[tenant_vol1@ds, tenant_vol2@ds, ...]` of length `len`. -/
def generate_volume_names (tenant : String) (datastore_name : String)
    (len : Nat) : List String :=
  (List.range len).map
    (fun x => tenant ++ "_vol" ++ toString (x + 1) ++ "@" ++ datastore_name)

end TestUtils

namespace VmListener

/-- The detach calls issued by `set_device_detached` are exactly the volume
paths `find_dvs` returns, one per classified device, in device order. -/
theorem set_device_detached_calls (find_dvs : Device → Option String) :
    ∀ devs : List Device,
      (set_device_detached find_dvs devs).2 = devs.filterMap find_dvs := by
  intro devs
  induction devs with
  | nil => rfl
  | cons d rest ih =>
    simp only [set_device_detached, List.filterMap_cons]
    cases h : find_dvs d <;> simp [h, ih]

/-- Counting helper: a filterMap is as long as the filter of the domain by
success of the classification. -/
theorem length_filterMap_eq_length_filter (f : Device → Option String) :
    ∀ l : List Device,
      (l.filterMap f).length = (l.filter (fun d => (f d).isSome)).length := by
  intro l
  induction l with
  | nil => rfl
  | cons d rest ih =>
    cases h : f d <;> simp [List.filterMap_cons, List.filter_cons, h, ih]

/-- C1: for a poll result containing one object-match of kind "modify" with
one property change setting the power-state field to poweredOff, the watch
loop issues exactly one setStatusDetached call (with the returned volume
path) per attached hardware device that find_dvs_volume classifies as a
volume, and none for a device whose classification is none. -/
theorem claim_C1_detach_once_per_volume_device
    (find_dvs : Device → Option String) (m : Moref) (c : Change) (ver : String)
    (hname : c.name = VM_POWERSTATE) (hval : c.val = POWERSTATE_POWEROFF) :
    (run_listener (listener_body find_dvs)
        [Except.ok ⟨[⟨[⟨"modify", [c], some m⟩]⟩], ver⟩] "").detaches
      = m.config.hardware.device.filterMap find_dvs ∧
    (run_listener (listener_body find_dvs)
        [Except.ok ⟨[⟨[⟨"modify", [c], some m⟩]⟩], ver⟩] "").detaches.length
      = (m.config.hardware.device.filter
          (fun d => (find_dvs d).isSome)).length := by
  have hmain : (run_listener (listener_body find_dvs)
      [Except.ok ⟨[⟨[⟨"modify", [c], some m⟩]⟩], ver⟩] "").detaches
      = m.config.hardware.device.filterMap find_dvs := by
    simp [run_listener, listener_body, process_result, process_objectSet,
          process_change, joinOut, hname, hval, set_device_detached_calls]
  exact ⟨hmain, by rw [hmain]; exact length_filterMap_eq_length_filter _ _⟩

/-- Witness for C1: a VM with one DVS-managed device and one unmanaged
device; exactly the managed one is detached. -/
theorem claim_C1_witness :
    (run_listener
        (listener_body
          (fun d => if d.devId == 0 then some "vol0.vmdk" else none))
        [Except.ok ⟨[⟨[⟨"modify", [⟨"runtime.powerState", "poweredOff"⟩],
            some ⟨⟨"vm1", ⟨[⟨0⟩, ⟨1⟩]⟩⟩⟩⟩]⟩], "v1"⟩] "").detaches
      = ([⟨0⟩, ⟨1⟩] : List Device).filterMap
          (fun d => if d.devId == 0 then some "vol0.vmdk" else none) :=
  (claim_C1_detach_once_per_volume_device
      (fun d => if d.devId == 0 then some "vol0.vmdk" else none)
      ⟨⟨"vm1", ⟨[⟨0⟩, ⟨1⟩]⟩⟩⟩ ⟨"runtime.powerState", "poweredOff"⟩ "v1"
      rfl rfl).1

/-- Cursor arguments of a run over successful polls, from any initial
cursor: each poll after the first uses the version of the previous result. -/
theorem run_listener_cursors_ok (body : UpdateResult → BodyOut) :
    ∀ (rs : List UpdateResult) (v : String),
      (run_listener body (rs.map Except.ok) v).cursors
        = (v :: rs.map UpdateResult.version).take rs.length := by
  intro rs
  induction rs with
  | nil => intro v; rfl
  | cons r rest ih =>
    intro v
    simp [run_listener, ih r.version, List.take_succ_cons]

/-- C2: the watch loop's cursor is the empty string before the first poll,
and the cursor passed to poll N+1 is the version token of the result of poll
N — for every loop body, hence regardless of whether processing of result N
raised an exception. -/
theorem claim_C2_cursor_invariant (body : UpdateResult → BodyOut)
    (rs : List UpdateResult) :
    (run_listener body (rs.map Except.ok) "").cursors
      = ("" :: rs.map UpdateResult.version).take rs.length :=
  run_listener_cursors_ok body rs ""

/-- C3: an exception raised by the body while processing one poll result is
caught and logged with the handler's message, and the loop performs the
subsequent polls starting from the just-received cursor; the crash status of
the run is unaffected by the caught exception. -/
theorem claim_C3_processing_error_caught_and_loop_continues
    (body : UpdateResult → BodyOut) (r : UpdateResult)
    (rest : List (Except String UpdateResult)) (v e : String)
    (herr : (body r).err = some e) :
    (run_listener body (Except.ok r :: rest) v).logs
      = (body r).logs
          ++ ⟨LogLevel.error, "VMChangeListener: error " ++ e⟩
          :: (run_listener body rest r.version).logs ∧
    (run_listener body (Except.ok r :: rest) v).cursors
      = v :: (run_listener body rest r.version).cursors ∧
    (run_listener body (Except.ok r :: rest) v).crashed
      = (run_listener body rest r.version).crashed := by
  refine ⟨?_, ?_, ?_⟩ <;> simp [run_listener, herr]

/-- Witness for C3: a body raising "boom" on a first result with cursor
token "v1"; the second poll is still made, with cursor "v1". -/
theorem claim_C3_witness :
    ((fun _ => (⟨[], [], some "boom"⟩ : BodyOut))
        (⟨[], "v1"⟩ : UpdateResult)).err = some "boom" ∧
    (run_listener (fun _ => (⟨[], [], some "boom"⟩ : BodyOut))
        [Except.ok ⟨[], "v1"⟩, Except.ok ⟨[], "v2"⟩] "").cursors
      = "" :: (run_listener (fun _ => (⟨[], [], some "boom"⟩ : BodyOut))
          [Except.ok ⟨[], "v2"⟩] "v1").cursors :=
  ⟨rfl, (claim_C3_processing_error_caught_and_loop_continues
      (fun _ => ⟨[], [], some "boom"⟩) ⟨[], "v1"⟩
      [Except.ok ⟨[], "v2"⟩] "" "boom" rfl).2.1⟩

/-- C4 counterexample: a schedule whose first poll raises.  Were the claim
true, the exception would be caught by the catch-log-continue handler and
the next poll made; instead the run makes exactly that one poll, logs
nothing, detaches nothing, and terminates with the exception uncaught. -/
theorem claim_C4_counterexample :
    run_listener (listener_body (fun _ => none))
        [Except.error "connection lost", Except.ok ⟨[], "v1"⟩] ""
      = ⟨[""], [], [], some "connection lost"⟩ := rfl

/-- C4 amended: an exception raised by the blocking WaitForUpdates call
itself is NOT caught — the call is outside the try block — so no handler log
is emitted, no further poll occurs, and the exception escapes, terminating
the watch loop. -/
theorem claim_C4_poll_error_uncaught (body : UpdateResult → BodyOut)
    (e : String) (rest : List (Except String UpdateResult)) (v : String) :
    run_listener body (Except.error e :: rest) v = ⟨[v], [], [], some e⟩ := rfl

end VmListener

namespace VmListener

/-- C5: an object-match of kind "modify" with a qualifying power-off change
but an absent VM object reference yields exactly the error log "Could not
retrieve the managed object" and no detach call, and processing continues
with the remaining object-matches exactly as it would without it (nothing is
raised: processing is total). -/
theorem claim_C5_absent_obj_logged_and_skipped
    (find_dvs : Device → Option String) (c : Change)
    (hname : c.name = VM_POWERSTATE) (hval : c.val = POWERSTATE_POWEROFF)
    (rest : List ObjectSet) (ver : String) :
    process_result find_dvs ⟨[⟨(⟨"modify", [c], none⟩ : ObjectSet) :: rest⟩], ver⟩
      = (⟨LogLevel.error, "Could not retrieve the managed object"⟩
           :: (process_result find_dvs ⟨[⟨rest⟩], ver⟩).1,
         (process_result find_dvs ⟨[⟨rest⟩], ver⟩).2) := by
  simp [process_result, process_objectSet, process_change, joinOut,
        hname, hval]

/-- Witness for C5: a single object-match with an absent object reference
logs the error and produces no detach call. -/
theorem claim_C5_witness :
    process_result (fun _ => none)
        ⟨[⟨[(⟨"modify", [⟨"runtime.powerState", "poweredOff"⟩], none⟩ :
            ObjectSet)]⟩], "v1"⟩
      = (⟨LogLevel.error, "Could not retrieve the managed object"⟩
           :: (process_result (fun _ => none) ⟨[⟨[]⟩], "v1"⟩).1,
         (process_result (fun _ => none) ⟨[⟨[]⟩], "v1"⟩).2) :=
  claim_C5_absent_obj_logged_and_skipped (fun _ => none)
    ⟨"runtime.powerState", "poweredOff"⟩ rfl rfl [] "v1"

/-- C6: an object-match whose kind is not "modify" contributes no log and no
detach call, and a property change whose name is not the power-state field
or whose new value is not poweredOff contributes no log and no detach call,
for any object-match it belongs to. -/
theorem claim_C6_nonqualifying_no_detach (find_dvs : Device → Option String)
    (os osq : ObjectSet) (c : Change)
    (hkind : os.kind ≠ "modify")
    (hc : c.name ≠ VM_POWERSTATE ∨ c.val ≠ POWERSTATE_POWEROFF) :
    process_objectSet find_dvs os = ([], []) ∧
    process_change find_dvs osq c = ([], []) := by
  constructor
  · unfold process_objectSet
    rw [if_pos hkind]
  · unfold process_change
    rw [if_pos hc]

/-- Witness for C6: an "enter" object-match and a poweredOn change both
contribute nothing, even with every device classified as a volume. -/
theorem claim_C6_witness :
    ((⟨"enter", [⟨"runtime.powerState", "poweredOff"⟩],
        some ⟨⟨"vm1", ⟨[⟨0⟩]⟩⟩⟩⟩ : ObjectSet)).kind ≠ "modify" ∧
    process_objectSet (fun d => some ("vol" ++ toString d.devId))
        ⟨"enter", [⟨"runtime.powerState", "poweredOff"⟩],
          some ⟨⟨"vm1", ⟨[⟨0⟩]⟩⟩⟩⟩ = ([], []) ∧
    process_change (fun d => some ("vol" ++ toString d.devId))
        ⟨"modify", [⟨"runtime.powerState", "poweredOn"⟩],
          some ⟨⟨"vm1", ⟨[⟨0⟩]⟩⟩⟩⟩
        ⟨"runtime.powerState", "poweredOn"⟩ = ([], []) := by
  refine ⟨by decide, ?_, ?_⟩
  · exact (claim_C6_nonqualifying_no_detach
      (fun d => some ("vol" ++ toString d.devId))
      ⟨"enter", [⟨"runtime.powerState", "poweredOff"⟩],
        some ⟨⟨"vm1", ⟨[⟨0⟩]⟩⟩⟩⟩
      ⟨"modify", [⟨"runtime.powerState", "poweredOn"⟩],
        some ⟨⟨"vm1", ⟨[⟨0⟩]⟩⟩⟩⟩
      ⟨"runtime.powerState", "poweredOn"⟩
      (by decide) (Or.inr (by decide))).1
  · exact (claim_C6_nonqualifying_no_detach
      (fun d => some ("vol" ++ toString d.devId))
      ⟨"enter", [⟨"runtime.powerState", "poweredOff"⟩],
        some ⟨⟨"vm1", ⟨[⟨0⟩]⟩⟩⟩⟩
      ⟨"modify", [⟨"runtime.powerState", "poweredOn"⟩],
        some ⟨⟨"vm1", ⟨[⟨0⟩]⟩⟩⟩⟩
      ⟨"runtime.powerState", "poweredOn"⟩
      (by decide) (Or.inr (by decide))).2

/-- C8: for a qualifying power-off change, an empty property-change list on a
"modify" object-match, or an empty (or absent, modelled as empty) hardware
device list on the referenced VM, yields zero detach calls and is not an
error: processing completes (it is total, so nothing is raised) and the only
log emitted is the informational power-off message — no error-level log. -/
theorem claim_C8_empty_lists_zero_detaches (find_dvs : Device → Option String)
    (obj : Option Moref) (c : Change) (m : Moref)
    (hname : c.name = VM_POWERSTATE) (hval : c.val = POWERSTATE_POWEROFF)
    (hdev : m.config.hardware.device = []) :
    process_objectSet find_dvs ⟨"modify", [], obj⟩ = ([], []) ∧
    process_change find_dvs ⟨"modify", [c], some m⟩ c
      = ([⟨LogLevel.info, "VM poweroff change found for " ++ m.config.name⟩],
         []) := by
  constructor
  · simp [process_objectSet, joinOut]
  · simp [process_change, hname, hval, hdev, set_device_detached]

/-- Witness for C8: an empty changeSet and a qualifying change on a VM with
no hardware devices both produce zero detach calls and no error log. -/
theorem claim_C8_witness :
    process_objectSet (fun _ => none) ⟨"modify", [], none⟩ = ([], []) ∧
    process_change (fun _ => none)
        ⟨"modify", [⟨"runtime.powerState", "poweredOff"⟩],
          some ⟨⟨"vm0", ⟨[]⟩⟩⟩⟩
        ⟨"runtime.powerState", "poweredOff"⟩
      = ([⟨LogLevel.info, "VM poweroff change found for " ++ "vm0"⟩], []) :=
  claim_C8_empty_lists_zero_detaches (fun _ => none) none
    ⟨"runtime.powerState", "poweredOff"⟩ ⟨⟨"vm0", ⟨[]⟩⟩⟩ rfl rfl rfl

end VmListener

namespace VmListener

/-- C7: if registering the power-state filter raises, start_vm_changelistener
returns the non-empty error message built from the exception and the watch
thread is never started (nor the cleanup registered); if registration
succeeds, the atexit cleanup is registered, the watch thread is started as a
daemon, and no error is returned. -/
theorem claim_C7_registration_outcome
    (CreateFilter : FilterSpec → Except String Unit) (from_node : String) :
    (∀ e, CreateFilter (powerstate_filterSpec from_node) = Except.error e →
        (start_vm_changelistener CreateFilter from_node).err
            = some ("Problem creating PropertyCollector filter: " ++ e) ∧
        ("Problem creating PropertyCollector filter: " ++ e).length > 0 ∧
        (start_vm_changelistener CreateFilter from_node).threadStarted
            = false ∧
        (start_vm_changelistener CreateFilter from_node).atexitRegistered
            = false) ∧
    (CreateFilter (powerstate_filterSpec from_node) = Except.ok () →
        start_vm_changelistener CreateFilter from_node
          = ⟨none, true, true, true⟩) := by
  constructor
  · intro e he
    refine ⟨?_, ?_, ?_, ?_⟩ <;>
      simp [start_vm_changelistener, create_vm_powerstate_filter, he,
            String.length_append]
    exact Or.inl (by decide)
  · intro hok
    simp [start_vm_changelistener, create_vm_powerstate_filter, hok]

/-- Witness for C7: one subscription service that rejects the filter and one
that accepts it. -/
theorem claim_C7_witness :
    ((start_vm_changelistener (fun _ => Except.error "rejected") "rootFolder").err
        = some ("Problem creating PropertyCollector filter: " ++ "rejected") ∧
      ("Problem creating PropertyCollector filter: " ++ "rejected").length > 0 ∧
      (start_vm_changelistener (fun _ => Except.error "rejected")
          "rootFolder").threadStarted = false ∧
      (start_vm_changelistener (fun _ => Except.error "rejected")
          "rootFolder").atexitRegistered = false) ∧
    start_vm_changelistener (fun _ => Except.ok ()) "rootFolder"
      = ⟨none, true, true, true⟩ :=
  ⟨(claim_C7_registration_outcome (fun _ => Except.error "rejected")
      "rootFolder").1 "rejected" rfl,
   (claim_C7_registration_outcome (fun _ => Except.ok ()) "rootFolder").2 rfl⟩

end VmListener

namespace TestUtils

/-- The inner scan of a non-empty result list succeeds exactly when some
entry has the requested name. -/
theorem scanName_true_iff (name : String) :
    ∀ res : List VolEntry, res ≠ [] →
      (scanName name res = true ↔ ∃ e ∈ res, e.Name = name) := by
  intro res
  induction res with
  | nil => intro h; exact absurd rfl h
  | cons e rest ih =>
    intro _
    cases rest with
    | nil => simp [scanName]
    | cons f rest2 =>
      have h2 := ih (List.cons_ne_nil f rest2)
      by_cases hm : e.Name = name
      · simp [scanName, hm]
      · have hstep : scanName name (e :: f :: rest2)
            = scanName name (f :: rest2) := by
          simp [scanName, hm]
        rw [hstep, h2]
        simp [hm]

/-- C9: checkIfVolumeExist is False whenever either argument is absent or
empty, and for non-empty arguments it is True exactly when every requested
name occurs as the Name value of some entry of the result. -/
theorem claim_C9_checkIfVolumeExist (vns : List String) (res : List VolEntry)
    (hv : vns ≠ []) (hr : res ≠ []) :
    checkIfVolumeExist none (some res) = false ∧
    checkIfVolumeExist (some vns) none = false ∧
    checkIfVolumeExist (some []) (some res) = false ∧
    checkIfVolumeExist (some vns) (some []) = false ∧
    (checkIfVolumeExist (some vns) (some res) = true ↔
      ∀ name ∈ vns, ∃ e ∈ res, e.Name = name) := by
  refine ⟨by simp [checkIfVolumeExist, listTruthy], rfl, ?_, rfl, ?_⟩
  · simp [checkIfVolumeExist, listTruthy]
  · have hcond : checkIfVolumeExist (some vns) (some res)
        = vns.all (fun name => scanName name res) := by
      simp [checkIfVolumeExist, listTruthy, hv, hr]
    rw [hcond, List.all_eq_true]
    constructor
    · intro h name hname
      exact (scanName_true_iff name res hr).1 (h name hname)
    · intro h name hname
      exact (scanName_true_iff name res hr).2 (h name hname)

/-- Witness for C9 on a two-entry listing and a one-name request. -/
theorem claim_C9_witness :
    checkIfVolumeExist none (some [⟨"v1"⟩, ⟨"v2"⟩]) = false ∧
    checkIfVolumeExist (some ["v1"]) none = false ∧
    checkIfVolumeExist (some []) (some [⟨"v1"⟩, ⟨"v2"⟩]) = false ∧
    checkIfVolumeExist (some ["v1"]) (some []) = false ∧
    (checkIfVolumeExist (some ["v1"]) (some [⟨"v1"⟩, ⟨"v2"⟩]) = true ↔
      ∀ name ∈ ["v1"], ∃ e ∈ ([⟨"v1"⟩, ⟨"v2"⟩] : List VolEntry),
        e.Name = name) :=
  claim_C9_checkIfVolumeExist ["v1"] [⟨"v1"⟩, ⟨"v2"⟩]
    (by decide) (by decide)

/-- C10: generate_volume_names returns exactly len names, the i-th (0-based)
being tenant ++ "_vol" ++ toString (i + 1) ++ "@" ++ datastore_name. -/
theorem claim_C10_generate_volume_names (tenant datastore_name : String)
    (len : Nat) :
    (generate_volume_names tenant datastore_name len).length = len ∧
    ∀ i : Nat, i < len →
      (generate_volume_names tenant datastore_name len)[i]?
        = some (tenant ++ "_vol" ++ toString (i + 1) ++ "@"
            ++ datastore_name) := by
  constructor
  · simp [generate_volume_names]
  · intro i hi
    simp [generate_volume_names, List.getElem?_map, List.getElem?_range, hi]

/-- Witness for C10 at tenant "tenant1", datastore "sharedVmfs-0", three
volumes, checking the middle name. -/
theorem claim_C10_witness :
    (generate_volume_names "tenant1" "sharedVmfs-0" 3).length = 3 ∧
    (generate_volume_names "tenant1" "sharedVmfs-0" 3)[1]?
      = some ("tenant1" ++ "_vol" ++ toString (1 + 1) ++ "@"
          ++ "sharedVmfs-0") :=
  ⟨(claim_C10_generate_volume_names "tenant1" "sharedVmfs-0" 3).1,
   (claim_C10_generate_volume_names "tenant1" "sharedVmfs-0" 3).2 1
     (by decide)⟩

end TestUtils
